import Mathlib

/-! Verification development for the bank-statement normalization and
categorization pipeline (`excel_processor.py`, `pdf_processor.py`).
The Python string operations the source relies on are modelled over
`List Char` (ASCII semantics); worksheets are grids of optional string
cells; amounts are modelled over `ℚ` (finite decimals). -/

/-- ASCII model of Python `str.isdigit` / the regex class `\d` for one character. -/
def isDigitC (c : Char) : Bool := 48 ≤ c.toNat && c.toNat ≤ 57

/-- Whitespace characters recognised by Python `str.strip` / `str.split` (ASCII). -/
def isPyWs (c : Char) : Bool :=
  c.toNat = 32 || c.toNat = 9 || c.toNat = 10 || c.toNat = 13 || c.toNat = 11 || c.toNat = 12

/-- Does the first list occur as a prefix of the second? -/
def hasPrefixL : List Char → List Char → Bool
  | [], _ => true
  | _ :: _, [] => false
  | c :: cs, d :: ds => c == d && hasPrefixL cs ds

/-- Does `sub` occur as a contiguous substring of the second list? -/
def hasSubL (sub : List Char) : List Char → Bool
  | [] => hasPrefixL sub []
  | c :: cs => hasPrefixL sub (c :: cs) || hasSubL sub cs

/-- Python `sub in hay` on strings (substring containment). -/
def strContains (hay sub : String) : Bool := hasSubL sub.toList hay.toList

/-- ASCII model of Python `str.upper` on one character. -/
def asciiUpper (c : Char) : Char :=
  if 97 ≤ c.toNat ∧ c.toNat ≤ 122 then Char.ofNat (c.toNat - 32) else c

/-- ASCII model of Python `str.lower` on one character. -/
def asciiLower (c : Char) : Char :=
  if 65 ≤ c.toNat ∧ c.toNat ≤ 90 then Char.ofNat (c.toNat + 32) else c

/-- Python `str.upper` (ASCII). -/
def pyUpper (s : String) : String := ⟨s.toList.map asciiUpper⟩

/-- Python `str.lower` (ASCII). -/
def pyLower (s : String) : String := ⟨s.toList.map asciiLower⟩

/-- Python `str.strip()`: drop whitespace from both ends. -/
def pyStrip (s : String) : String :=
  ⟨((s.toList.dropWhile isPyWs).reverse.dropWhile isPyWs).reverse⟩

/-- Python `str.split()` with no argument: split on whitespace runs, no empties. -/
def pySplitWs (s : String) : List String :=
  ((s.toList.splitOnP isPyWs).map (fun l => (⟨l⟩ : String))).filter (fun w => w ≠ "")

/-- Python `str.title()` on one character given whether the previous character was alphabetic. -/
def titleGo : Bool → List Char → List Char
  | _, [] => []
  | prevAlpha, c :: cs =>
    let alpha := (65 ≤ c.toNat ∧ c.toNat ≤ 90) ∨ (97 ≤ c.toNat ∧ c.toNat ≤ 122)
    let c' := if alpha then (if prevAlpha then asciiLower c else asciiUpper c) else c
    c' :: titleGo (decide alpha) cs

/-- Python `str.title()` (ASCII). -/
def pyTitle (s : String) : String := ⟨titleGo false s.toList⟩

/-- Python `str.replace(t, '')` for a one-character needle `t`. -/
def removeChar (t : Char) (s : String) : String := ⟨s.toList.filter (fun c => c ≠ t)⟩

/-- Python `str.zfill(2)` on a digit-group string. -/
def zfill2 (s : String) : String :=
  if s.length < 2 then ⟨List.replicate (2 - s.length) '0' ++ s.toList⟩ else s

/-- Numeric value of a digit string (as read by Python `int`). -/
def natOfDigits (l : List Char) : Nat := l.foldl (fun a c => 10 * a + (c.toNat - 48)) 0

/-- Maximal digit prefix of a character list, with the remainder. -/
def grabDigits : List Char → List Char × List Char
  | [] => ([], [])
  | c :: cs =>
    if isDigitC c then
      let p := grabDigits cs
      (c :: p.1, p.2)
    else ([], c :: cs)

/-- Python `s[:n]`. -/
def strTake (n : Nat) (s : String) : String := ⟨s.toList.take n⟩

/-- Python `s[-n:]`. -/
def strTakeRight (n : Nat) (s : String) : String := ⟨s.toList.drop (s.toList.length - n)⟩

/-- Python `category.split(' ')[0]`: the prefix before the first space. -/
def firstWord (s : String) : String := ⟨s.toList.takeWhile (fun c => c ≠ ' ')⟩

/-- Ten raised to a natural power, over ℤ. -/
def pow10 : Nat → Int
  | 0 => 1
  | n + 1 => 10 * pow10 n

/-- Exponent part of a Python float literal: optional sign then digits, then end. -/
def pyExpPart (k : Int → Option ℚ) (t : List Char) : Option ℚ :=
  let p : Bool × List Char :=
    match t with
    | '+' :: u => (false, u)
    | '-' :: u => (true, u)
    | u => (false, u)
  let q := grabDigits p.2
  if q.1.isEmpty || ¬ q.2.isEmpty then none
  else k (if p.1 then -(natOfDigits q.1 : Int) else (natOfDigits q.1 : Int))

/-- Decimal model of Python `float(...)` over ℚ: stripped input, optional sign,
digits with optional fraction, optional exponent. Non-finite forms (`inf`,
`nan`) and underscore digit separators are not modelled. -/
def pyFloat? (s : String) : Option ℚ :=
  let l := (pyStrip s).toList
  let sp : Bool × List Char :=
    match l with
    | '+' :: r => (false, r)
    | '-' :: r => (true, r)
    | r => (false, r)
  let ipp := grabDigits sp.2
  let dp : Bool × List Char :=
    match ipp.2 with
    | '.' :: r => (true, r)
    | r => (false, r)
  let fpp := if dp.1 then grabDigits dp.2 else ([], dp.2)
  if ipp.1.isEmpty && fpp.1.isEmpty then none
  else
    let mantNat : Int := (natOfDigits (ipp.1 ++ fpp.1) : Int)
    let mant : Int := if sp.1 then -mantNat else mantNat
    let mkVal : Int → Option ℚ := fun e =>
      let e' : Int := e - (fpp.1.length : Int)
      if 0 ≤ e' then some (Rat.divInt (mant * pow10 e'.toNat) 1)
      else some (Rat.divInt mant (pow10 (-e').toNat))
    match fpp.2 with
    | [] => mkVal 0
    | 'e' :: t => pyExpPart mkVal t
    | 'E' :: t => pyExpPart mkVal t
    | _ => none

/-- Python `abs` on ℚ, decided on the numerator. -/
def ratAbs (q : ℚ) : ℚ := if q.num < 0 then -q else q

/-- A worksheet: a grid of optional string cells (openpyxl `None` ↦ `none`). -/
structure Worksheet where
  rows : List (List (Option String))
deriving Repr, DecidableEq

namespace Worksheet

/-- One-based cell access, `none` outside the grid. -/
def cell (ws : Worksheet) (r c : Nat) : Option String :=
  (ws.rows.getD (r - 1) []).getD (c - 1) none

/-- openpyxl `max_row`. -/
def maxRow (ws : Worksheet) : Nat := ws.rows.length

/-- openpyxl `max_column`. -/
def maxCol (ws : Worksheet) : Nat := ws.rows.foldl (fun a r => max a r.length) 0

end Worksheet

/-- Python truthiness of an openpyxl cell value in our model. -/
def cellTruthy (c : Option String) : Bool :=
  match c with
  | none => false
  | some s => s ≠ ""

/-- The canonical transaction record built by both processors. -/
structure Transaction where
  date : String
  amount : ℚ
  description : String
  category : String
  subcategory : String
deriving Repr, DecidableEq

/-- Any keyword of the list occurring in the description (Python `any(... in ...)`). -/
def keywordHit (desc : String) (kws : List String) : Bool :=
  kws.any (fun k => strContains desc k)

namespace UAEBankExcelProcessor

/-- Keyword table of `self.categories` in `excel_processor.py`. -/
def categoryKeywords (cat : String) : List String :=
  if cat = "Food & Dining" then
    ["carrefour", "lulu", "spinneys", "choithrams", "union coop", "waitrose",
     "restaurant", "cafe", "kfc", "mcdonald", "pizza", "subway", "dominos",
     "starbucks", "costa", "dunkin", "burger", "food", "dining", "eat",
     "grocery", "supermarket", "hypermarket", "bakery", "deli", "bistro",
     "catering", "takeaway", "delivery", "zomato", "talabat", "deliveroo",
     "doordash", "grubhub", "uber eats", "postmates", "chipotle", "panera",
     "whole foods", "trader joe", "safeway", "kroger", "target", "walmart",
     "donuts", "coffee", "espresso", "bacio di latte", "butchery", "zinque",
     "ralphs", "albertsons", "vons", "pavilions", "publix", "wegmans", "harris teeter"]
  else if cat = "Transportation" then
    ["adnoc", "eppco", "enoc", "petrol", "fuel", "gas", "gasoline",
     "taxi", "uber", "careem", "metro", "bus", "rta", "parking",
     "salik", "toll", "car wash", "transport", "emirates", "etihad",
     "flydubai", "air arabia", "airline", "flight", "airport",
     "chevron", "shell", "bp", "76", "exxon", "mobil", "lyft",
     "parking services", "toll roads", "valet"]
  else if cat = "Shopping & Retail" then
    ["mall", "centrepoint", "max", "home centre", "ikea", "ace",
     "sharaf dg", "jumbo", "electronics", "clothing", "fashion",
     "shop", "store", "retail", "amazon", "noon", "souq", "namshi",
     "h&m", "zara", "nike", "adidas", "apple", "samsung", "virgin",
     "uniqlo", "target", "walmart", "costco", "best buy", "macy",
     "nordstrom", "kohls", "tj maxx", "ross", "marshalls"]
  else if cat = "Healthcare" then
    ["hospital", "clinic", "pharmacy", "medical", "doctor", "health",
     "dental", "medicare", "aster", "nmc", "mediclinic", "life pharmacy",
     "boots", "aster pharmacy", "day today pharmacy"]
  else if cat = "Utilities & Bills" then
    ["dewa", "addc", "sewa", "fewa", "etisalat", "du", "internet",
     "mobile", "telecom", "electricity", "water", "gas", "utility", "bill",
     "wifi", "broadband", "phone bill", "electric bill"]
  else if cat = "Entertainment" then
    ["cinema", "movie", "vox", "reel", "netflix", "osn", "gaming",
     "entertainment", "park", "beach", "attraction", "ticket", "event",
     "spotify", "youtube", "disney", "amazon prime", "hulu", "shahid",
     "disneyland", "balloon museum", "sawdust festival", "museum", "amusement"]
  else if cat = "Subscriptions & Digital Services" then
    ["netflix", "spotify", "youtube premium", "amazon prime", "disney+",
     "adobe", "microsoft", "google", "icloud", "dropbox", "zoom",
     "subscription", "monthly", "annual", "recurring", "saas",
     "software", "app store", "play store", "itunes", "office 365"]
  else if cat = "ATM & Cash Withdrawals" then
    ["atm", "cash withdrawal", "withdrawal", "atm withdrawal",
     "cash advance", "atm fee", "withdrawal fee"]
  else if cat = "Banking & Finance" then
    ["transfer", "fee", "charge", "finance", "loan", "interest",
     "bank fee", "service charge", "maintenance fee", "overdraft",
     "wire transfer", "remittance", "exchange"]
  else if cat = "Personal Care" then
    ["salon", "spa", "barbershop", "beauty", "cosmetics", "skincare",
     "haircut", "manicure", "pedicure", "massage", "gym", "fitness",
     "24hourfitness", "planet fitness", "la fitness", "crunch", "equinox",
     "flex fitness", "orangetheory"]
  else []

/-- Fixed priority order of `categorize_transaction`. -/
def category_priority : List String :=
  ["ATM & Cash Withdrawals", "Subscriptions & Digital Services", "Food & Dining",
   "Transportation", "Healthcare", "Utilities & Bills", "Entertainment",
   "Shopping & Retail", "Personal Care", "Banking & Finance"]

/-- Additional validation guards on three categories (the `if category == ...` checks). -/
def extraGuard (cat desc : String) : Bool :=
  if cat = "ATM & Cash Withdrawals" then
    keywordHit desc ["atm", "withdrawal", "cash"]
  else if cat = "Subscriptions & Digital Services" then
    keywordHit desc ["subscription", "monthly", "netflix", "spotify", "prime",
                     "office", "adobe", "google", "microsoft", "icloud"]
  else if cat = "Banking & Finance" then
    keywordHit desc ["transfer", "fee", "charge", "interest", "maintenance"]
  else true

/-- The priority pass: first category whose keyword set hits and whose guard holds. -/
def priorityScan (desc : String) : List String → Option String
  | [] => none
  | cat :: rest =>
    if keywordHit desc (categoryKeywords cat) && extraGuard cat desc then some cat
    else priorityScan desc rest

/-- The `merchant_patterns` table, in source order. -/
def merchant_patterns : List (String × String) :=
  [("CAREEM", "Transportation"), ("TALABAT", "Food & Dining"),
   ("ZOMATO", "Food & Dining"), ("NETFLIX", "Subscriptions & Digital Services"),
   ("SPOTIFY", "Subscriptions & Digital Services"), ("AMAZON", "Shopping & Retail"),
   ("NOON", "Shopping & Retail"), ("ADNOC", "Transportation"),
   ("ENOC", "Transportation"), ("EPPCO", "Transportation")]

/-- Last-resort merchant-literal scan. -/
def merchantScan (desc : String) : List (String × String) → Option String
  | [] => none
  | p :: rest => if strContains desc (pyLower p.1) then some p.2 else merchantScan desc rest

/-- `UAEBankExcelProcessor.categorize_transaction`. -/
def categorize_transaction (description : String) : String :=
  let d := pyStrip (pyLower description)
  match priorityScan d category_priority with
  | some c => c
  | none =>
    if keywordHit d ["taxi", "uber", "careem", "rta"] then "Transportation"
    else if keywordHit d ["restaurant", "cafe", "food", "dining", "eat"] then "Food & Dining"
    else if keywordHit d ["mall", "shop", "store", "retail"] then "Shopping & Retail"
    else
      match merchantScan d merchant_patterns with
      | some c => c
      | none => "Other Expenses"

end UAEBankExcelProcessor

namespace BankStatementPDFProcessor

/-- Keyword table of `self.categories` in `pdf_processor.py`. -/
def categoryKeywords (cat : String) : List String :=
  if cat = "Food & Dining" then
    ["carrefour", "lulu", "spinneys", "choithrams", "union coop", "waitrose",
     "restaurant", "cafe", "kfc", "mcdonald", "pizza", "subway", "dominos",
     "starbucks", "costa", "dunkin", "burger", "food", "dining", "eat",
     "grocery", "supermarket", "hypermarket", "bakery", "deli", "bistro",
     "catering", "takeaway", "delivery", "zomato", "talabat", "deliveroo",
     "doordash", "grubhub", "uber eats", "postmates", "chipotle", "panera",
     "whole foods", "trader joe", "safeway", "kroger", "target", "walmart",
     "donuts", "coffee", "espresso", "bacio di latte", "butchery", "zinque",
     "ralphs", "albertsons", "vons", "pavilions", "publix", "wegmans"]
  else if cat = "Transportation" then
    ["adnoc", "eppco", "enoc", "petrol", "fuel", "gas", "gasoline",
     "taxi", "uber", "careem", "metro", "bus", "rta", "parking",
     "salik", "toll", "car wash", "transport", "emirates", "etihad",
     "flydubai", "air arabia", "airline", "flight", "airport",
     "chevron", "shell", "bp", "76", "exxon", "mobil", "lyft"]
  else if cat = "Shopping & Retail" then
    ["mall", "centrepoint", "max", "home centre", "ikea", "ace",
     "sharaf dg", "jumbo", "electronics", "clothing", "fashion",
     "shop", "store", "retail", "amazon", "noon", "souq", "namshi",
     "h&m", "zara", "nike", "adidas", "apple", "samsung", "virgin",
     "uniqlo", "costco", "best buy", "macy", "nordstrom"]
  else if cat = "Healthcare" then
    ["hospital", "clinic", "pharmacy", "medical", "doctor", "health",
     "dental", "medicare", "aster", "nmc", "mediclinic", "life pharmacy",
     "boots", "cvs", "walgreens"]
  else if cat = "Utilities & Bills" then
    ["dewa", "addc", "sewa", "fewa", "etisalat", "du", "internet",
     "mobile", "telecom", "electricity", "water", "utility", "bill",
     "wifi", "broadband", "verizon", "at&t", "t-mobile"]
  else if cat = "Entertainment" then
    ["cinema", "movie", "vox", "reel", "netflix", "osn", "gaming",
     "entertainment", "park", "beach", "attraction", "ticket", "event",
     "spotify", "youtube", "disney", "hulu", "disneyland"]
  else if cat = "Subscriptions & Digital Services" then
    ["netflix", "spotify", "youtube premium", "amazon prime", "disney+",
     "adobe", "microsoft", "google", "icloud", "dropbox", "zoom",
     "subscription", "saas", "office 365", "rocket money"]
  else if cat = "ATM & Cash Withdrawals" then
    ["atm", "cash withdrawal", "withdrawal", "cash advance"]
  else if cat = "Banking & Finance" then
    ["transfer", "fee", "charge", "finance", "loan", "interest",
     "bank fee", "service charge", "wire transfer", "zelle"]
  else if cat = "Personal Care" then
    ["salon", "spa", "barbershop", "beauty", "cosmetics", "skincare",
     "gym", "fitness", "24hourfitness", "planet fitness"]
  else []

/-- Fixed priority order of the PDF categorizer. -/
def category_priority : List String :=
  ["ATM & Cash Withdrawals", "Subscriptions & Digital Services", "Food & Dining",
   "Transportation", "Healthcare", "Utilities & Bills", "Entertainment",
   "Shopping & Retail", "Personal Care", "Banking & Finance"]

/-- The priority pass of the PDF categorizer: no guard clauses. -/
def priorityScan (desc : String) : List String → Option String
  | [] => none
  | cat :: rest =>
    if keywordHit desc (categoryKeywords cat) then some cat
    else priorityScan desc rest

/-- `BankStatementPDFProcessor.categorize_transaction`. -/
def categorize_transaction (description : String) : String :=
  let d := pyStrip (pyLower description)
  match priorityScan d category_priority with
  | some c => c
  | none => "Other Expenses"

end BankStatementPDFProcessor

/-- Regex `$` under Python `re.match`: end of input, allowing one trailing newline. -/
def endOk : List Char → Bool
  | [] => true
  | ['\n'] => true
  | _ => false

/-- Deterministic compilation of the anchored regex
`^(\d{1,2})/(\d{1,2})/(\d{yearLen})$`: since `/` is not a digit, each group is
the maximal digit run at its position and backtracking can never succeed. -/
def matchSlashDate (yearLen : Nat) (l : List Char) : Option (String × String × String) :=
  let g1 := grabDigits l
  if 1 ≤ g1.1.length ∧ g1.1.length ≤ 2 then
    match g1.2 with
    | '/' :: r2 =>
      let g2 := grabDigits r2
      if 1 ≤ g2.1.length ∧ g2.1.length ≤ 2 then
        match g2.2 with
        | '/' :: r4 =>
          let g3 := grabDigits r4
          if g3.1.length = yearLen ∧ endOk g3.2 then some (⟨g1.1⟩, ⟨g2.1⟩, ⟨g3.1⟩)
          else none
        | _ => none
      else none
    | _ => none
  else none

/-- Deterministic compilation of the anchored regex `^(\d{4})-(\d{1,2})-(\d{1,2})$`. -/
def matchISODate (l : List Char) : Option (String × String × String) :=
  let g1 := grabDigits l
  if g1.1.length = 4 then
    match g1.2 with
    | '-' :: r2 =>
      let g2 := grabDigits r2
      if 1 ≤ g2.1.length ∧ g2.1.length ≤ 2 then
        match g2.2 with
        | '-' :: r4 =>
          let g3 := grabDigits r4
          if (1 ≤ g3.1.length ∧ g3.1.length ≤ 2) ∧ endOk g3.2 then some (⟨g1.1⟩, ⟨g2.1⟩, ⟨g3.1⟩)
          else none
        | _ => none
      else none
    | _ => none
  else none

namespace UAEBankExcelProcessor

/-- `UAEBankExcelProcessor.detect_date_format` on string input. `today` stands
for `datetime.now().strftime('%Y-%m-%d')`, the ultimate fallback. The patterns
are tried in source order: DD/MM/YYYY, MM/DD/YY (with the in-loop special
handling and year pivot), MM/DD/YYYY (unreachable after the first pattern),
YYYY-MM-DD. -/
def detect_date_format (today : String) (date_string : String) : String :=
  let ds := (pyStrip date_string).toList
  match matchSlashDate 4 ds with
  | some g => g.2.2 ++ "-" ++ zfill2 g.2.1 ++ "-" ++ zfill2 g.1
  | none =>
    match matchSlashDate 2 ds with
    | some g =>
      let fullYear := if natOfDigits g.2.2.toList < 50 then "20" ++ g.2.2 else "19" ++ g.2.2
      fullYear ++ "-" ++ zfill2 g.1 ++ "-" ++ zfill2 g.2.1
    | none =>
      match matchSlashDate 4 ds with
      | some g => g.2.2 ++ "-" ++ zfill2 g.1 ++ "-" ++ zfill2 g.2.1
      | none =>
        match matchISODate ds with
        | some g => g.1 ++ "-" ++ zfill2 g.2.1 ++ "-" ++ zfill2 g.2.2
        | none => today

/-- `self.bank_patterns`, in insertion order. -/
def bank_patterns : List (String × List String) :=
  [("ADCB", ["abu dhabi commercial bank", "adcb"]),
   ("FAB", ["first abu dhabi bank", "fab"]),
   ("ENBD", ["emirates nbd", "enbd"]),
   ("MASHREQ", ["mashreq bank", "mashreq"]),
   ("CBD", ["commercial bank of dubai", "cbd"]),
   ("HSBC", ["hsbc"]),
   ("RAKBANK", ["rak bank", "rakbank"]),
   ("ADIB", ["abu dhabi islamic bank", "adib"]),
   ("BOA", ["bank of america", "bofa", "boa", "b of a"]),
   ("CHASE", ["chase", "jp morgan chase", "jpmorgan"]),
   ("WELLS", ["wells fargo", "wells"]),
   ("CITI", ["citibank", "citi"])]

/-- The code-to-display-name table inside `detect_bank`. -/
def bankFullName (code : String) : String :=
  if code = "ADCB" then "Abu Dhabi Commercial Bank"
  else if code = "FAB" then "First Abu Dhabi Bank"
  else if code = "ENBD" then "Emirates NBD"
  else if code = "MASHREQ" then "Mashreq Bank"
  else if code = "CBD" then "Commercial Bank of Dubai"
  else if code = "HSBC" then "HSBC Bank Middle East"
  else if code = "RAKBANK" then "RAKBank"
  else if code = "ADIB" then "Abu Dhabi Islamic Bank"
  else if code = "BOA" then "Bank of America"
  else if code = "CHASE" then "Chase Bank"
  else if code = "WELLS" then "Wells Fargo"
  else if code = "CITI" then "Citibank"
  else code ++ " Bank"

/-- First bank whose pattern list hits the lowercased text. -/
def bankScan (tl : String) : List (String × List String) → Option String
  | [] => none
  | p :: rest => if keywordHit tl p.2 then some p.1 else bankScan tl rest

/-- `UAEBankExcelProcessor.detect_bank`. -/
def detect_bank (text : String) : String :=
  match bankScan (pyLower text) bank_patterns with
  | some code => bankFullName code
  | none => "Unknown Bank"

end UAEBankExcelProcessor

/-- Bank metadata record. -/
structure BankInfo where
  bank_name : String
  account_holder : String
  account_number : String
  currency : String
deriving Repr, DecidableEq

namespace UAEBankExcelProcessor

/-- Anchored match of `^\d{10,16}$` under `re.match` (one trailing newline allowed). -/
def matchAcctDigits (s : String) : Bool :=
  let l := s.toList
  let core := if l.getLast? = some '\n' then l.dropLast else l
  (decide (10 ≤ core.length) && decide (core.length ≤ 16)) && core.all isDigitC

/-- Per-cell update of `extract_bank_info` (lines 379–395): bank detection,
account-holder heuristic, account-number masking. -/
def updateBankInfo (bi : BankInfo) (raw : String) : BankInfo :=
  let cv := pyUpper raw
  let bi1 :=
    let bn := detect_bank cv
    if bn ≠ "UAE Bank" ∧ bn ≠ "Unknown Bank" then { bi with bank_name := bn } else bi
  let bi2 :=
    if 2 ≤ (pySplitWs cv).length ∧ (pySplitWs cv).length ≤ 4 then
      if ¬ (cv.toList.any (fun c => isDigitC c)) then
        if keywordHit (pyLower cv) ["mr", "ms", "mrs", "dr"] then
          { bi1 with account_holder := pyTitle cv }
        else bi1
      else bi1
    else bi1
  if matchAcctDigits (removeChar '-' (removeChar ' ' cv)) then
    { bi2 with account_number := strTake 4 cv ++ "-****-" ++ strTakeRight 4 cv }
  else bi2

/-- `UAEBankExcelProcessor.extract_bank_info`: scans rows
`range(1, min(21, max_row+1))` × columns `range(1, min(10, max_column+1))`. -/
def extract_bank_info (ws : Worksheet) : BankInfo :=
  (List.range' 1 (min 21 (ws.maxRow + 1) - 1)).foldl
    (fun bi r =>
      (List.range' 1 (min 10 (ws.maxCol + 1) - 1)).foldl
        (fun bi c => updateBankInfo bi ((ws.cell r c).getD "")) bi)
    { bank_name := "UAE Bank", account_holder := "Account Holder",
      account_number := "XXXX-XXXX-XXXX", currency := "AED" }

/-- The `Account Info` sheet scan of `process_excel_file` (lines 485–503):
the pipeline's bank info when that sheet is present. The account number is
copied verbatim from column 2. -/
def accountInfoBankInfo (info : Worksheet) : BankInfo :=
  (List.range' 1 info.maxRow).foldl
    (fun bi r =>
      let field := pyLower ((info.cell r 1).getD "")
      let value := (info.cell r 2).getD ""
      if strContains field "account holder" ∧ value ≠ "" then
        { bi with account_holder := value }
      else if strContains field "account number" ∧ value ≠ "" then
        { bi with account_number := value }
      else if strContains field "bank name" ∧ value ≠ "" then
        let detected := detect_bank value
        if detected ≠ "Unknown Bank" then
          { bi with bank_name := detected,
                    currency :=
                      if strContains detected "America" ∨ strContains detected "Chase" ∨
                         strContains detected "Wells" ∨ strContains detected "Citi"
                      then "USD" else "AED" }
        else bi
      else bi)
    { bank_name := "Unknown Bank", account_holder := "Account Holder",
      account_number := "XXXX-XXXX-XXXX", currency := "USD" }

end UAEBankExcelProcessor

namespace UAEBankExcelProcessor

/-- The per-row `row_data` dictionary of `find_data_headers`. -/
structure ColumnData where
  header_row : Option Nat := none
  date_col : Option Nat := none
  description_col : Option Nat := none
  type_col : Option Nat := none
  reference_col : Option Nat := none
  debit_col : Option Nat := none
  credit_col : Option Nat := none
  amount_col : Option Nat := none
deriving Repr, DecidableEq

/-- The `header_keywords` list. -/
def header_keywords : List String :=
  ["date", "amount", "description", "particular", "narration",
   "debit", "credit", "balance", "type", "reference"]

/-- The `if/elif` chain assigning a column role from one header cell's text. -/
def assignCol (cv : String) (col : Nat) (rd : ColumnData) : ColumnData :=
  if strContains cv "date" then { rd with date_col := some col }
  else if strContains cv "description" ∨ strContains cv "particular" ∨
          strContains cv "narration" then { rd with description_col := some col }
  else if strContains cv "type" then { rd with type_col := some col }
  else if strContains cv "reference" ∨ strContains cv "ref" then
    { rd with reference_col := some col }
  else if strContains cv "debit" then { rd with debit_col := some col }
  else if strContains cv "credit" then { rd with credit_col := some col }
  else if strContains cv "amount" then { rd with amount_col := some col }
  else rd

/-- One row's scan: keyword-cell count and assigned roles over columns
`range(1, min(max_column + 1, 10))`. -/
def scanRow (ws : Worksheet) (row : Nat) : Nat × ColumnData :=
  (List.range' 1 (min (ws.maxCol + 1) 10 - 1)).foldl
    (fun acc col =>
      let cv := pyStrip (pyLower ((ws.cell row col).getD ""))
      if cv ≠ "" ∧ keywordHit cv header_keywords then (acc.1 + 1, assignCol cv col acc.2)
      else acc)
    (0, {})

/-- The hardcoded fallback column map. -/
def defaultColumnMap : ColumnData :=
  { header_row := some 1, date_col := some 1, description_col := some 2,
    debit_col := some 4, credit_col := some 5 }

/-- `UAEBankExcelProcessor.find_data_headers`: first row of the window
`range(1, min(20, max_row + 1))` with at least 3 keyword cells; otherwise
the default map. -/
def find_data_headers (ws : Worksheet) : ColumnData :=
  match (List.range' 1 (min 20 (ws.maxRow + 1) - 1)).find? (fun r => 3 ≤ (scanRow ws r).1) with
  | some r => { (scanRow ws r).2 with header_row := some r }
  | none => defaultColumnMap

/-- Column indices used by the row loop of `process_excel_file`, after the
`.get(key, default)` resolutions of lines 517–522. -/
structure Cols where
  date : Nat
  desc : Nat
  debit : Nat
  credit : Nat
  amount : Option Nat
deriving Repr, DecidableEq

/-- Resolution of the detected column map to concrete indices (lines 517–522). -/
def colsOf (cd : ColumnData) : Cols :=
  { date := cd.date_col.getD 1, desc := cd.description_col.getD 2,
    debit := cd.debit_col.getD 4, credit := cd.credit_col.getD 5,
    amount := cd.amount_col }

/-- The debit/credit usability test of lines 556–558:
`cell and str(cell).strip() and str(cell).strip() not in ['', '-', 'None']`. -/
def usableCell (c : Option String) : Bool :=
  match c with
  | none => false
  | some s => s ≠ "" && pyStrip s ≠ "" && pyStrip s ≠ "-" && pyStrip s ≠ "None"

/-- One iteration of the row loop of `process_excel_file` (lines 529–584);
`none` means the row is skipped. `count` is `len(all_transactions)` so far and
`today` stands for `datetime.now().strftime('%Y-%m-%d')`. -/
def process_excel_row (ws : Worksheet) (cols : Cols) (row count : Nat) (today : String) :
    Option Transaction :=
  let date_cell := ws.cell row cols.date
  let description_cell := ws.cell row cols.desc
  let debit_cell := ws.cell row cols.debit
  let credit_cell := ws.cell row cols.credit
  if ¬ cellTruthy date_cell then none
  else if keywordHit (pyUpper (date_cell.getD ""))
            ["TOTAL", "SUMMARY", "BALANCE", "OPENING", "CLOSING"] then none
  else if cellTruthy description_cell ∧
          keywordHit (pyUpper (description_cell.getD "")) ["TOTAL", "SUMMARY", "MONTHLY"] then
    none
  else
    let date_str := detect_date_format today (date_cell.getD "")
    let amount? : Option ℚ :=
      match cols.amount with
      | some ac =>
        let av := ws.cell row ac
        pyFloat? (removeChar ',' (if cellTruthy av then av.getD "" else "0"))
      | none =>
        if usableCell debit_cell then
          (pyFloat? (removeChar ',' (debit_cell.getD ""))).map (fun q => -(ratAbs q))
        else if usableCell credit_cell then
          (pyFloat? (removeChar ',' (credit_cell.getD ""))).map ratAbs
        else some 0
    match amount? with
    | none => none
    | some a =>
      if a = 0 then none
      else
        let description :=
          if cellTruthy description_cell then pyStrip (description_cell.getD "")
          else s!"Transaction {count + 1}"
        let category := categorize_transaction description
        some { date := date_str, amount := a, description := description,
               category := category,
               subcategory := if category ≠ "Other Expenses" then firstWord category
                              else "Miscellaneous" }

/-- The per-sheet transaction loop of `process_excel_file`: header detection,
then rows `range(header_row + 1, max_row + 1)`, threading the running
transaction count (used for placeholder descriptions). -/
def process_excel_sheet (ws : Worksheet) (count0 : Nat) (today : String) : List Transaction :=
  let cm := find_data_headers ws
  let cols := colsOf cm
  let hr := cm.header_row.getD 1
  (List.range' (hr + 1) (ws.maxRow - hr)).foldl
    (fun (acc : List Transaction) row =>
      match process_excel_row ws cols row (count0 + acc.length) today with
      | some t => acc ++ [t]
      | none => acc)
    []

/-- Abstract classifier: receives the prompt's enumerated description lines of
one batch and returns either the parsed array of category strings or a failure
(exception from the call, or malformed JSON). -/
def Classifier : Type := List String → Except Unit (List String)

/-- The description lines embedded in one batch's prompt:
`descriptions[:30]` where `descriptions` enumerates the batch starting at the
batch's global offset (`enumerate(batch, start=i)`). -/
def promptAt (start : Nat) (batch : List Transaction) : List String :=
  (batch.enum.map (fun p => s!"{start + p.1}. {p.2.description}")).take 30

/-- One batch of `ai_categorize_transactions` (lines 324–359): on success the
response is applied positionally while in bounds; on any failure the batch is
kept unchanged. -/
def applyBatch (clf : Classifier) (start : Nat) (batch : List Transaction) : List Transaction :=
  match clf (promptAt start batch) with
  | .error _ => batch
  | .ok cats =>
    batch.enum.map (fun p =>
      if h : p.1 < cats.length then
        { p.2 with category := cats.get ⟨p.1, h⟩, subcategory := firstWord (cats.get ⟨p.1, h⟩) }
      else p.2)

/-- The batch loop `for i in range(0, len(transactions), 50)`. The first
argument is iteration fuel (initially the list length), strictly larger than
the number of 50-element steps; it only makes the recursion structural. -/
def aiBatches (clf : Classifier) : Nat → Nat → List Transaction → List Transaction
  | _, _, [] => []
  | 0, _, ts => ts
  | fuel + 1, start, t :: rest =>
    applyBatch clf start ((t :: rest).take 50) ++
      aiBatches clf fuel (start + 50) ((t :: rest).drop 50)

/-- `UAEBankExcelProcessor.ai_categorize_transactions`, the OpenAI call
abstracted into `clf`; `apiKeySet` models the truthiness of `openai.api_key`. -/
def ai_categorize_transactions (apiKeySet : Bool) (clf : Classifier)
    (ts : List Transaction) : List Transaction :=
  if ¬ apiKeySet ∨ ts = [] then ts else aiBatches clf ts.length 0 ts

end UAEBankExcelProcessor

namespace UAEBankExcelProcessor

/-- Outcome of one batch's classification for the element at batch offset `j`. -/
def batchOutcome (clf : Classifier) (start : Nat) (batch : List Transaction) (j : Nat)
    (t : Transaction) : Transaction :=
  match clf (promptAt start batch) with
  | .error _ => t
  | .ok cats =>
    if h : j < cats.length then
      { t with category := cats.get ⟨j, h⟩, subcategory := firstWord (cats.get ⟨j, h⟩) }
    else t

end UAEBankExcelProcessor

/-- Some date pattern of `detect_date_format` matches the (stripped) input. -/
def anyDateMatch (s : String) : Bool :=
  (matchSlashDate 4 s.toList).isSome || (matchSlashDate 2 s.toList).isSome ||
    (matchISODate s.toList).isSome

/-- A zero-padded ISO date shape `\d{4}-\d{2}-\d{2}` (used to state C4). -/
def isPaddedISO (s : String) : Bool :=
  match s.toList with
  | [y1, y2, y3, y4, a, m1, m2, b, d1, d2] =>
    isDigitC y1 && isDigitC y2 && isDigitC y3 && isDigitC y4 && (a == '-') &&
      isDigitC m1 && isDigitC m2 && (b == '-') && isDigitC d1 && isDigitC d2
  | _ => false

/-- A sheet whose only keyword-bearing row is row 20 (rows 1–19 empty). -/
def wsHeaderAtRow20 : Worksheet :=
  ⟨List.replicate 19 [] ++ [[some "Date", some "Description", some "Debit", some "Credit"]]⟩

/-- A header row whose first cell contains both `date` and `particular`. -/
def wsDateParticulars : Worksheet :=
  ⟨[[some "Date Particulars", some "Debit", some "Credit"]]⟩

/-- A sheet with a data row whose description contains `BALANCE`. -/
def wsBalanceDescription : Worksheet :=
  ⟨[[some "Date", some "Description", some "Debit", some "Credit"],
    [some "01/02/2024", some "BALANCE CARRIED", some "50", none]]⟩

/-- A sheet with one ordinary debit transaction row. -/
def wsCarrefour : Worksheet :=
  ⟨[[some "Date", some "Description", some "Debit", some "Credit"],
    [some "01/02/2024", some "Carrefour", some "50", none]]⟩

/-- A sheet whose data row has `TOTAL` in the date cell. -/
def wsTotalDate : Worksheet :=
  ⟨[[some "Date", some "Description", some "Debit", some "Credit"],
    [some "TOTAL", some "x", some "1", none]]⟩

/-- A sample transaction record for witnesses. -/
def txCarrefour : Transaction :=
  { date := "2024-02-01", amount := -50, description := "Carrefour",
    category := "Food & Dining", subcategory := "Food" }

open UAEBankExcelProcessor in
/-- C10: the claim that the Excel and the PDF rule-based categorizers compute
the same function from description strings to category labels is false: they
disagree at the concrete description `"zelle"`. -/
theorem C10_counterexample :
    ¬ ∀ d : String, UAEBankExcelProcessor.categorize_transaction d =
      BankStatementPDFProcessor.categorize_transaction d := by
  intro h
  have h2 := h "zelle"
  revert h2
  decide

/-- C10 (amended): the two rule-based categorizers are distinct functions —
on `"zelle"` the Excel categorizer returns the catch-all while the PDF one
returns `Banking & Finance` (its keyword table contains `zelle`, the Excel one
does not); both agree on the empty description, returning the catch-all. -/
theorem C10_not_same_function :
    UAEBankExcelProcessor.categorize_transaction "zelle" = "Other Expenses"
    ∧ BankStatementPDFProcessor.categorize_transaction "zelle" = "Banking & Finance"
    ∧ UAEBankExcelProcessor.categorize_transaction "" = "Other Expenses"
    ∧ BankStatementPDFProcessor.categorize_transaction "" = "Other Expenses" := by
  decide

open UAEBankExcelProcessor in
/-- C6: the claim that a header cell containing both `particular` and `date`
is assigned the description role is false: in `find_data_headers` the
`if/elif` chain tests `date` first, so the concrete header cell
`"Date Particulars"` (which contains both keywords) becomes the date column
and no description column is assigned. -/
theorem C6_counterexample :
    strContains (pyStrip (pyLower "Date Particulars")) "date" = true
    ∧ strContains (pyStrip (pyLower "Date Particulars")) "particular" = true
    ∧ (find_data_headers wsDateParticulars).date_col = some 1
    ∧ (find_data_headers wsDateParticulars).description_col = none := by
  decide

open UAEBankExcelProcessor in
/-- C6 (amended): a header cell's role is decided by the fixed `if/elif`
chain order of `find_data_headers` — `date` is tested first, so any cell whose
text contains `date` is assigned the date role no matter which other keywords
it contains (in particular a cell with both `particular` and `date`); the
description keywords only apply when `date` is absent. A later matching
column overwrites an earlier one for the same role. -/
theorem C6_chain_order (cv : String) (col : Nat) (rd : ColumnData) :
    (strContains cv "date" = true → assignCol cv col rd = { rd with date_col := some col })
    ∧ (strContains cv "date" = false →
       (strContains cv "description" = true ∨ strContains cv "particular" = true ∨
        strContains cv "narration" = true) →
       assignCol cv col rd = { rd with description_col := some col }) := by
  constructor
  · intro h
    simp [assignCol, h]
  · intro h1 h2
    simp [assignCol, h1]
    rcases h2 with h2 | h2 | h2 <;> simp [h2]

open UAEBankExcelProcessor in
/-- Witness for C6 (amended) at a concrete header cell. -/
theorem C6_chain_order_witness :
    assignCol "date particulars" 3 {} = { ({} : ColumnData) with date_col := some 3 } :=
  (C6_chain_order "date particulars" 3 {}).1 (by decide)

open UAEBankExcelProcessor in
/-- C7: the claim that a row is skipped whenever the description cell contains
any of the six keywords is false: the description skip list is only
`{TOTAL, SUMMARY, MONTHLY}`, so a row whose description contains `BALANCE`
is still emitted as a transaction. -/
theorem C7_counterexample :
    process_excel_sheet wsBalanceDescription 0 "2020-01-01" =
      [{ date := "2024-02-01", amount := -50, description := "BALANCE CARRIED",
         category := "Other Expenses", subcategory := "Miscellaneous" }]
    ∧ strContains (pyUpper "BALANCE CARRIED") "BALANCE" = true := by
  decide

open UAEBankExcelProcessor in
/-- C7 (amended): the transaction builder skips a row when the date cell's
uppercased text contains any of `{TOTAL, SUMMARY, BALANCE, OPENING, CLOSING}`,
and when the description cell is non-empty and its uppercased text contains
any of `{TOTAL, SUMMARY, MONTHLY}`. -/
theorem C7_skip_keywords (ws : Worksheet) (cols : Cols) (row count : Nat) (today : String) :
    (keywordHit (pyUpper ((ws.cell row cols.date).getD ""))
        ["TOTAL", "SUMMARY", "BALANCE", "OPENING", "CLOSING"] = true →
      process_excel_row ws cols row count today = none)
    ∧ (cellTruthy (ws.cell row cols.desc) = true →
       keywordHit (pyUpper ((ws.cell row cols.desc).getD ""))
         ["TOTAL", "SUMMARY", "MONTHLY"] = true →
      process_excel_row ws cols row count today = none) := by
  constructor
  · intro h
    by_cases ht : cellTruthy (ws.cell row cols.date) = true
    · simp [process_excel_row, ht, h]
    · simp [process_excel_row, ht]
  · intro hd hk
    by_cases ht : cellTruthy (ws.cell row cols.date) = true
    · by_cases hs : keywordHit (pyUpper ((ws.cell row cols.date).getD ""))
        ["TOTAL", "SUMMARY", "BALANCE", "OPENING", "CLOSING"] = true
      · simp [process_excel_row, ht, hs]
      · simp [process_excel_row, ht, hs, hd, hk]
    · simp [process_excel_row, ht]

open UAEBankExcelProcessor in
/-- Witness for C7 (amended) at a concrete row with `TOTAL` in the date cell. -/
theorem C7_skip_keywords_witness :
    process_excel_row wsTotalDate ⟨1, 2, 3, 4, none⟩ 2 0 "2020-01-01" = none :=
  (C7_skip_keywords wsTotalDate ⟨1, 2, 3, 4, none⟩ 2 0 "2020-01-01").1 (by decide)

namespace UAEBankExcelProcessor

/-- `applyBatch` preserves the batch length. -/
theorem applyBatch_length (clf : Classifier) (start : Nat) (batch : List Transaction) :
    (applyBatch clf start batch).length = batch.length := by
  unfold applyBatch
  cases clf (promptAt start batch) with
  | error e => rfl
  | ok cats => simp

/-- Index-wise description of `applyBatch`. -/
theorem applyBatch_getElem? (clf : Classifier) (start : Nat) (batch : List Transaction)
    (i : Nat) :
    (applyBatch clf start batch)[i]? = (batch[i]?).map (batchOutcome clf start batch i) := by
  unfold applyBatch batchOutcome
  cases hc : clf (promptAt start batch) with
  | error e => cases batch[i]? <;> simp
  | ok cats =>
    rw [List.getElem?_map, List.getElem?_enum]
    cases batch[i]? <;> simp

/-- `batchOutcome` never touches date, amount or description. -/
theorem batchOutcome_preserves (clf : Classifier) (start : Nat) (batch : List Transaction)
    (j : Nat) (t : Transaction) :
    (batchOutcome clf start batch j t).date = t.date
    ∧ (batchOutcome clf start batch j t).amount = t.amount
    ∧ (batchOutcome clf start batch j t).description = t.description := by
  unfold batchOutcome
  cases clf (promptAt start batch) with
  | error e => exact ⟨rfl, rfl, rfl⟩
  | ok cats => by_cases h : j < cats.length <;> simp [h]

/-- A failing classification leaves the element unchanged. -/
theorem batchOutcome_of_error (clf : Classifier) (start : Nat) (batch : List Transaction)
    (j : Nat) (t : Transaction) (h : clf (promptAt start batch) = Except.error ()) :
    batchOutcome clf start batch j t = t := by
  unfold batchOutcome
  rw [h]

/-- `aiBatches` preserves the list length. -/
theorem aiBatches_length (clf : Classifier) :
    ∀ (fuel start : Nat) (ts : List Transaction),
    (aiBatches clf fuel start ts).length = ts.length := by
  intro fuel
  induction fuel with
  | zero => intro start ts; cases ts <;> rfl
  | succ n ih =>
    intro start ts
    cases ts with
    | nil => rfl
    | cons t rest =>
      show (applyBatch clf start ((t :: rest).take 50) ++
        aiBatches clf n (start + 50) ((t :: rest).drop 50)).length = _
      rw [List.length_append, applyBatch_length, ih, List.length_take, List.length_drop]
      simp only [List.length_cons]
      omega

/-- With an always-failing classifier `aiBatches` is the identity. -/
theorem aiBatches_of_error (clf : Classifier) (hf : ∀ l, clf l = Except.error ()) :
    ∀ (fuel start : Nat) (ts : List Transaction), aiBatches clf fuel start ts = ts := by
  intro fuel
  induction fuel with
  | zero => intro start ts; cases ts <;> rfl
  | succ n ih =>
    intro start ts
    cases ts with
    | nil => rfl
    | cons t rest =>
      show applyBatch clf start ((t :: rest).take 50) ++
        aiBatches clf n (start + 50) ((t :: rest).drop 50) = _
      rw [ih]
      unfold applyBatch
      rw [hf]
      exact List.take_append_drop 50 (t :: rest)

/-- Index-wise description of the batch loop: element `i` is classified inside
the batch `i / 50` (a 50-element slice of the input) at offset `i % 50`. -/
theorem aiBatches_getElem? (clf : Classifier) :
    ∀ (fuel start i : Nat) (ts : List Transaction), ts.length ≤ fuel → i < ts.length →
    (aiBatches clf fuel start ts)[i]? =
      (ts[i]?).map
        (batchOutcome clf (start + 50 * (i / 50)) ((ts.drop (50 * (i / 50))).take 50)
          (i % 50)) := by
  intro fuel
  induction fuel with
  | zero => intro start i ts hf hi; omega
  | succ n ih =>
    intro start i ts hf hi
    cases ts with
    | nil => simp at hi
    | cons t rest =>
      show (applyBatch clf start ((t :: rest).take 50) ++
        aiBatches clf n (start + 50) ((t :: rest).drop 50))[i]? = _
      rw [List.getElem?_append]
      simp only [List.length_cons] at hf hi
      by_cases h50 : i < 50
      · have hlen : i < (applyBatch clf start ((t :: rest).take 50)).length := by
          rw [applyBatch_length, List.length_take]
          simp only [List.length_cons]
          omega
        rw [if_pos hlen, applyBatch_getElem?]
        rw [Nat.div_eq_of_lt h50, Nat.mod_eq_of_lt h50]
        simp only [Nat.mul_zero, List.drop_zero, Nat.add_zero]
        congr 1
        rw [List.getElem?_take, if_pos h50]
      · have h50' : 50 ≤ i := Nat.not_lt.mp h50
        have hlen : ¬ i < (applyBatch clf start ((t :: rest).take 50)).length := by
          rw [applyBatch_length, List.length_take]
          omega
        rw [if_neg hlen]
        have hlen50 : (applyBatch clf start ((t :: rest).take 50)).length = 50 := by
          rw [applyBatch_length, List.length_take]
          simp only [List.length_cons]
          omega
        rw [hlen50]
        have hfd : ((t :: rest).drop 50).length ≤ n := by
          rw [List.length_drop]
          simp only [List.length_cons]
          omega
        have hid : i - 50 < ((t :: rest).drop 50).length := by
          rw [List.length_drop]
          simp only [List.length_cons]
          omega
        rw [ih (start + 50) (i - 50) _ hfd hid]
        obtain ⟨j, rfl⟩ : ∃ j, i = j + 50 := ⟨i - 50, by omega⟩
        simp only [Nat.add_sub_cancel]
        rw [Nat.add_div_right _ (by norm_num : 0 < 50), Nat.add_mod_right]
        rw [List.drop_drop, List.getElem?_drop]
        have e1 : start + 50 + 50 * (j / 50) = start + 50 * (j / 50 + 1) := by ring
        have e2 : 50 + 50 * (j / 50) = 50 * (j / 50 + 1) := by ring
        have e3 : 50 + j = j + 50 := by ring
        rw [e1, e2, e3]

end UAEBankExcelProcessor

namespace UAEBankExcelProcessor

/-- A successful classification applies the response positionally. -/
theorem batchOutcome_of_ok (clf : Classifier) (start : Nat) (batch : List Transaction)
    (j : Nat) (t : Transaction) (cats : List String)
    (h : clf (promptAt start batch) = Except.ok cats) :
    batchOutcome clf start batch j t =
      if hj : j < cats.length then
        { t with category := cats.get ⟨j, hj⟩, subcategory := firstWord (cats.get ⟨j, hj⟩) }
      else t := by
  unfold batchOutcome
  rw [h]

end UAEBankExcelProcessor

open UAEBankExcelProcessor in
/-- C2: the AI categorization batcher is total (modelled as a total function:
any classifier exception or parse failure is a `Except.error` absorbed per
batch), returns a list of the same length whose elements keep their date,
amount and description in order; an element whose batch's classification
failed is returned unchanged (so it keeps its rule-based category), and with
an always-failing classifier the output is exactly the input list. -/
theorem C2_recategorize_total (clf : Classifier) (ts : List Transaction) :
    (ai_categorize_transactions true clf ts).length = ts.length
    ∧ (∀ i, i < ts.length →
        ((ai_categorize_transactions true clf ts)[i]?).map Transaction.date
            = (ts[i]?).map Transaction.date
        ∧ ((ai_categorize_transactions true clf ts)[i]?).map Transaction.amount
            = (ts[i]?).map Transaction.amount
        ∧ ((ai_categorize_transactions true clf ts)[i]?).map Transaction.description
            = (ts[i]?).map Transaction.description)
    ∧ (∀ i, i < ts.length →
        clf (promptAt (50 * (i / 50)) ((ts.drop (50 * (i / 50))).take 50)) = Except.error () →
        (ai_categorize_transactions true clf ts)[i]? = ts[i]?)
    ∧ ((∀ l, clf l = Except.error ()) → ai_categorize_transactions true clf ts = ts) := by
  by_cases hts : ts = []
  · subst hts
    refine ⟨rfl, ?_, ?_, fun _ => rfl⟩ <;> intro i hi <;> simp at hi
  · have hun : ai_categorize_transactions true clf ts = aiBatches clf ts.length 0 ts := by
      unfold ai_categorize_transactions
      simp [hts]
    refine ⟨?_, ?_, ?_, ?_⟩
    · rw [hun, aiBatches_length]
    · intro i hi
      rw [hun, aiBatches_getElem? clf ts.length 0 i ts le_rfl hi]
      simp only [Nat.zero_add]
      cases ts[i]? with
      | none => exact ⟨rfl, rfl, rfl⟩
      | some t =>
        simp only [Option.map_some']
        have h := batchOutcome_preserves clf (50 * (i / 50))
          ((ts.drop (50 * (i / 50))).take 50) (i % 50) t
        exact ⟨by simp [h.1], by simp [h.2.1], by simp [h.2.2]⟩
    · intro i hi herr
      rw [hun, aiBatches_getElem? clf ts.length 0 i ts le_rfl hi]
      simp only [Nat.zero_add]
      cases ts[i]? with
      | none => rfl
      | some t =>
        simp only [Option.map_some']
        rw [batchOutcome_of_error _ _ _ _ _ herr]
    · intro hf
      rw [hun, aiBatches_of_error clf hf]

open UAEBankExcelProcessor in
/-- Witness for C2 at a concrete transaction list and classifiers. -/
theorem C2_recategorize_total_witness :
    ai_categorize_transactions true (fun _ => Except.error ()) [txCarrefour] = [txCarrefour] :=
  (C2_recategorize_total (fun _ => Except.error ()) [txCarrefour]).2.2.2 (fun _ => rfl)

open UAEBankExcelProcessor in
/-- C3: the batcher cuts the input into consecutive 50-element slices; the
prompt for a batch contains exactly the enumerated descriptions of the first
30 batch elements (numbered from the batch's global offset) and nothing
beyond; a successful response array is applied positionally, overwriting the
category of batch element `i` exactly when `i` is within the array's bounds,
and leaving elements at or beyond the array's length unchanged. -/
theorem C3_batching (clf : Classifier) (ts : List Transaction) :
    (∀ (start : Nat) (batch : List Transaction) (j : Nat),
        (j < 30 → (promptAt start batch)[j]? =
          (batch[j]?).map (fun t => s!"{start + j}. {t.description}"))
        ∧ (30 ≤ j → (promptAt start batch)[j]? = none))
    ∧ (∀ i cats, i < ts.length →
        clf (promptAt (50 * (i / 50)) ((ts.drop (50 * (i / 50))).take 50)) = Except.ok cats →
        (i % 50 < cats.length →
          (ai_categorize_transactions true clf ts)[i]? =
            (ts[i]?).map (fun t =>
              { t with category := cats[i % 50]!,
                       subcategory := firstWord (cats[i % 50]!) }))
        ∧ (cats.length ≤ i % 50 →
          (ai_categorize_transactions true clf ts)[i]? = ts[i]?)) := by
  constructor
  · intro start batch j
    constructor
    · intro hj
      unfold promptAt
      rw [List.getElem?_take, if_pos hj, List.getElem?_map, List.getElem?_enum]
      cases batch[j]? <;> simp
    · intro hj
      apply List.getElem?_eq_none
      unfold promptAt
      calc (List.take 30 (batch.enum.map _)).length ≤ 30 := by
            rw [List.length_take]; omega
        _ ≤ j := hj
  · intro i cats hi hok
    have hts : ts ≠ [] := by intro he; subst he; simp at hi
    have hun : ai_categorize_transactions true clf ts = aiBatches clf ts.length 0 ts := by
      unfold ai_categorize_transactions
      simp [hts]
    constructor
    · intro hin
      rw [hun, aiBatches_getElem? clf ts.length 0 i ts le_rfl hi]
      simp only [Nat.zero_add]
      cases ts[i]? with
      | none => rfl
      | some t =>
        simp only [Option.map_some']
        rw [batchOutcome_of_ok _ _ _ _ _ _ hok, dif_pos hin]
        congr 2 <;> rw [getElem!_pos cats (i % 50) hin] <;> rfl
    · intro hout
      rw [hun, aiBatches_getElem? clf ts.length 0 i ts le_rfl hi]
      simp only [Nat.zero_add]
      cases ts[i]? with
      | none => rfl
      | some t =>
        simp only [Option.map_some']
        rw [batchOutcome_of_ok _ _ _ _ _ _ hok, dif_neg (by omega)]

open UAEBankExcelProcessor in
/-- Witness for C3 at a concrete one-element list and classifier. -/
theorem C3_batching_witness :
    (promptAt 0 [txCarrefour])[0]? = some "0. Carrefour"
    ∧ (ai_categorize_transactions true (fun _ => Except.ok ["Income"]) [txCarrefour])[0]? =
        some { txCarrefour with category := "Income", subcategory := "Income" } := by
  constructor
  · have h := ((C3_batching (fun _ => Except.ok ["Income"]) [txCarrefour]).1 0 [txCarrefour] 0).1
      (by decide)
    rw [h]
    decide
  · have h := (((C3_batching (fun _ => Except.ok ["Income"]) [txCarrefour]).2 0 ["Income"]
      (by decide) rfl).1 (by decide))
    rw [h]
    decide

open UAEBankExcelProcessor in
/-- C9: the claim fails after an AI category overwrite — the batcher sets
subcategory to the first word of the returned category unconditionally, so a
response of `Other Expenses` yields subcategory `Other`, not `Miscellaneous`;
shown on the transaction list produced by the pipeline's own builder. -/
theorem C9_counterexample :
    ai_categorize_transactions true (fun _ => Except.ok ["Other Expenses"])
        (process_excel_sheet wsCarrefour 0 "2020-01-01") =
      [{ date := "2024-02-01", amount := -50, description := "Carrefour",
         category := "Other Expenses", subcategory := "Other" }]
    ∧ ("Other" : String) ≠ "Miscellaneous" := by
  decide

open UAEBankExcelProcessor in
/-- C9 (amended): as built by the transaction builder the subcategory is the
first word of the category, except the constant `Miscellaneous` when the
category is the catch-all `Other Expenses`; after an AI overwrite the
subcategory is the first word of the new category unconditionally (hence
`Other`, not `Miscellaneous`, when the classifier returns the catch-all). -/
theorem C9_subcategory :
    (∀ (ws : Worksheet) (cols : Cols) (row count : Nat) (today : String) (t : Transaction),
        process_excel_row ws cols row count today = some t →
        t.subcategory =
          if t.category ≠ "Other Expenses" then firstWord t.category else "Miscellaneous")
    ∧ (∀ (clf : Classifier) (start : Nat) (batch : List Transaction) (cats : List String)
        (i : Nat) (hin : i < cats.length) (t : Transaction),
        clf (promptAt start batch) = Except.ok cats → batch[i]? = some t →
        (applyBatch clf start batch)[i]? =
          some { t with category := cats.get ⟨i, hin⟩,
                        subcategory := firstWord (cats.get ⟨i, hin⟩) }) := by
  constructor
  · intro ws cols row count today t h
    simp only [process_excel_row] at h
    split at h
    · exact absurd h (by simp)
    split at h
    · exact absurd h (by simp)
    split at h
    · exact absurd h (by simp)
    split at h
    · exact absurd h (by simp)
    split at h
    · exact absurd h (by simp)
    rw [Option.some_inj] at h
    subst h
    rfl
  · intro clf start batch cats i hin t hok hbt
    rw [applyBatch_getElem?, hbt]
    simp only [Option.map_some']
    rw [batchOutcome_of_ok _ _ _ _ _ _ hok, dif_pos hin]

open UAEBankExcelProcessor in
/-- Witness for C9 (amended) at a concrete built transaction and batch. -/
theorem C9_subcategory_witness :
    txCarrefour.subcategory =
      (if txCarrefour.category ≠ "Other Expenses" then firstWord txCarrefour.category
       else "Miscellaneous")
    ∧ (applyBatch (fun _ => Except.ok ["Other Expenses"]) 0 [txCarrefour])[0]? =
        some { txCarrefour with category := "Other Expenses", subcategory := "Other" } := by
  constructor
  · exact C9_subcategory.1 wsCarrefour (colsOf (find_data_headers wsCarrefour)) 2 0
      "2020-01-01" txCarrefour (by decide)
  · have h := C9_subcategory.2 (fun _ => Except.ok ["Other Expenses"]) 0 [txCarrefour]
      ["Other Expenses"] 0 (by decide) txCarrefour rfl (by decide)
    exact h.trans (by decide)

/-- `ratAbs` is nonnegative. -/
theorem ratAbs_nonneg (q : ℚ) : 0 ≤ ratAbs q := by
  unfold ratAbs
  split
  · rename_i h
    have hq : q < 0 := Rat.num_neg.mp h
    linarith
  · rename_i h
    exact Rat.num_nonneg.mp (le_of_not_lt h)

namespace UAEBankExcelProcessor

/-- Every transaction the row builder emits has nonzero amount. -/
theorem process_excel_row_amount_ne (ws : Worksheet) (cols : Cols) (row count : Nat)
    (today : String) (t : Transaction)
    (h : process_excel_row ws cols row count today = some t) : t.amount ≠ 0 := by
  simp only [process_excel_row] at h
  split at h
  · exact absurd h (by simp)
  split at h
  · exact absurd h (by simp)
  split at h
  · exact absurd h (by simp)
  split at h
  · exact absurd h (by simp)
  split at h
  · exact absurd h (by simp)
  rw [Option.some_inj] at h
  subst h
  rename_i hne
  exact hne

/-- Membership in the sheet builder's output comes from some row's builder. -/
theorem process_excel_sheet_mem (ws : Worksheet) (count0 : Nat) (today : String)
    (t : Transaction) (h : t ∈ process_excel_sheet ws count0 today) :
    ∃ row count, process_excel_row ws (colsOf (find_data_headers ws)) row count today
      = some t := by
  unfold process_excel_sheet at h
  suffices hgen : ∀ (rows : List Nat) (acc : List Transaction),
      t ∈ rows.foldl
        (fun (acc : List Transaction) row =>
          match process_excel_row ws (colsOf (find_data_headers ws)) row
              (count0 + acc.length) today with
          | some t => acc ++ [t]
          | none => acc) acc →
      t ∈ acc ∨ ∃ row count,
        process_excel_row ws (colsOf (find_data_headers ws)) row count today = some t by
    rcases hgen _ [] h with hin | hex
    · simp at hin
    · exact hex
  intro rows
  induction rows with
  | nil => intro acc hm; exact Or.inl hm
  | cons r rs ih =>
    intro acc hm
    simp only [List.foldl_cons] at hm
    rcases ih _ hm with hin | hex
    · revert hin
      cases hp : process_excel_row ws (colsOf (find_data_headers ws)) r
          (count0 + acc.length) today with
      | none => exact fun hin => Or.inl hin
      | some t' =>
        intro hin
        rcases List.mem_append.mp hin with hin | hin
        · exact Or.inl hin
        · simp only [List.mem_singleton] at hin
          subst hin
          exact Or.inr ⟨r, count0 + acc.length, hp⟩
    · exact Or.inr hex

end UAEBankExcelProcessor

open UAEBankExcelProcessor in
/-- C8: in debit/credit-column mode a built transaction's amount is negative
exactly when the row's debit cell is non-empty and non-placeholder (the branch
the amount was read from), positive exactly when the debit cell is unusable
and the credit cell is usable; and no transaction in a sheet's output has
amount exactly zero (zero-amount rows are dropped in every mode). -/
theorem C8_sign_invariant (ws : Worksheet) (cols : Cols) (row count count0 : Nat)
    (today : String) (t : Transaction) :
    (cols.amount = none → process_excel_row ws cols row count today = some t →
      t.amount ≠ 0
      ∧ (t.amount < 0 ↔ usableCell (ws.cell row cols.debit) = true)
      ∧ (0 < t.amount ↔ usableCell (ws.cell row cols.debit) = false ∧
          usableCell (ws.cell row cols.credit) = true))
    ∧ (∀ t' ∈ process_excel_sheet ws count0 today, t'.amount ≠ 0) := by
  constructor
  · intro hA h
    simp only [process_excel_row, hA] at h
    split at h
    · exact absurd h (by simp)
    split at h
    · exact absurd h (by simp)
    split at h
    · exact absurd h (by simp)
    rename_i hd1 hd2 hd3
    split at h
    · exact absurd h (by simp)
    rename_i a heq
    split at h
    · exact absurd h (by simp)
    rename_i hne
    rw [Option.some_inj] at h
    subst h
    simp only []
    by_cases hdeb : usableCell (ws.cell row cols.debit) = true
    · rw [if_pos hdeb] at heq
      rcases Option.map_eq_some'.mp heq with ⟨q, hq, rfl⟩
      have habs : 0 ≤ ratAbs q := ratAbs_nonneg q
      have hlt : -(ratAbs q) < 0 := by
        rcases lt_or_eq_of_le habs with hlt | heq0
        · linarith
        · exact absurd (by rw [← heq0]; ring) hne
      refine ⟨hne, ?_, ?_⟩
      · simp [hdeb, hlt]
      · constructor
        · intro hpos
          linarith
        · intro ⟨hc1, _⟩
          rw [hdeb] at hc1
          exact absurd hc1 (by simp)
    · rw [if_neg hdeb] at heq
      have hdeb' : usableCell (ws.cell row cols.debit) = false := by
        revert hdeb
        cases usableCell (ws.cell row cols.debit) <;> simp
      split at heq
      · rename_i hcred
        rcases Option.map_eq_some'.mp heq with ⟨q, hq, rfl⟩
        have habs : 0 ≤ ratAbs q := ratAbs_nonneg q
        have hgt : 0 < ratAbs q := by
          rcases lt_or_eq_of_le habs with hlt | heq0
          · exact hlt
          · exact absurd heq0.symm hne
        refine ⟨hne, ?_, ?_⟩
        · constructor
          · intro hlt0
            linarith
          · intro hc
            rw [hc] at hdeb
            exact absurd rfl hdeb
        · simp [hdeb', hcred, hgt]
      · rw [Option.some_inj] at heq
        exact absurd heq.symm hne
  · intro t' ht'
    rcases process_excel_sheet_mem ws count0 today t' ht' with ⟨r, c, hp⟩
    exact process_excel_row_amount_ne ws _ r c today t' hp

open UAEBankExcelProcessor in
/-- Witness for C8 at a concrete debit row. -/
theorem C8_sign_invariant_witness :
    txCarrefour.amount ≠ 0
    ∧ (txCarrefour.amount < 0 ↔
        usableCell (wsCarrefour.cell 2 (colsOf (find_data_headers wsCarrefour)).debit) = true)
    ∧ (0 < txCarrefour.amount ↔
        usableCell (wsCarrefour.cell 2 (colsOf (find_data_headers wsCarrefour)).debit) = false
        ∧ usableCell (wsCarrefour.cell 2 (colsOf (find_data_headers wsCarrefour)).credit)
            = true) :=
  (C8_sign_invariant wsCarrefour (colsOf (find_data_headers wsCarrefour)) 2 0 0
    "2020-01-01" txCarrefour).1 (by decide) (by decide)

/-- `find?` over a contiguous range is `none` when the predicate fails throughout. -/
theorem find?_range'_none (p : Nat → Bool) (s n : Nat)
    (h : ∀ r, s ≤ r → r < s + n → p r = false) : (List.range' s n).find? p = none := by
  rw [List.find?_eq_none]
  intro x hx
  rw [List.mem_range'_1] at hx
  simp [h x hx.1 hx.2]

/-- `find?` over a contiguous range returns the first element satisfying the
predicate. -/
theorem find?_range'_first (p : Nat → Bool) :
    ∀ (n s r : Nat), s ≤ r → r < s + n → p r = true →
    (∀ r', s ≤ r' → r' < r → p r' = false) → (List.range' s n).find? p = some r := by
  intro n
  induction n with
  | zero => intro s r h1 h2; omega
  | succ m ih =>
    intro s r h1 h2 hp hmin
    rw [List.range'_succ]
    by_cases hs : s = r
    · subst hs
      simp [List.find?, hp]
    · have hfalse : p s = false := hmin s le_rfl (by omega)
      rw [List.find?]
      rw [hfalse]
      exact ih (s + 1) r (by omega) (by omega) hp (fun r' h1' h2' => hmin r' (by omega) h2')

open UAEBankExcelProcessor in
/-- C5: the claim that the detector scans rows 1 through 20 is false: the
window is `range(1, min(20, max_row + 1))`, i.e. rows 1–19. On a sheet whose
only header-like row is row 20 (which has 4 ≥ 3 keyword cells), the detector
returns the hardcoded default map instead of reporting row 20. -/
theorem C5_counterexample :
    3 ≤ (scanRow wsHeaderAtRow20 20).1
    ∧ wsHeaderAtRow20.maxRow = 20
    ∧ find_data_headers wsHeaderAtRow20 = defaultColumnMap
    ∧ (find_data_headers wsHeaderAtRow20).header_row = some 1 := by
  decide

open UAEBankExcelProcessor in
/-- C5 (amended): the detector scans rows 1 through 19 (the Python window
`range(1, min(20, max_row + 1))`). The first row in that window with at least
3 keyword cells is returned with its keyword-derived roles and
`header_row` set to it; if no row of the window reaches the threshold the
result is exactly the default map
`header_row=1, date_col=1, description_col=2, debit_col=4, credit_col=5`. -/
theorem C5_window (ws : Worksheet) :
    ((∀ r, 1 ≤ r → r ≤ min 19 ws.maxRow → (scanRow ws r).1 < 3) →
      find_data_headers ws =
        { header_row := some 1, date_col := some 1, description_col := some 2,
          debit_col := some 4, credit_col := some 5 })
    ∧ (∀ r, 1 ≤ r → r ≤ min 19 ws.maxRow → 3 ≤ (scanRow ws r).1 →
        (∀ r', 1 ≤ r' → r' < r → (scanRow ws r').1 < 3) →
        find_data_headers ws = { (scanRow ws r).2 with header_row := some r }) := by
  constructor
  · intro h
    unfold find_data_headers
    rw [find?_range'_none]
    · rfl
    · intro r h1 h2
      simp only [decide_eq_false_iff_not, not_le]
      exact h r h1 (by omega)
  · intro r h1 h2 h3 hmin
    unfold find_data_headers
    rw [find?_range'_first _ (min 20 (ws.maxRow + 1) - 1) 1 r h1 (by omega)
      (by simp [h3])
      (fun r' h1' h2' => by
        simp only [decide_eq_false_iff_not, not_le]
        exact hmin r' h1' h2')]

open UAEBankExcelProcessor in
/-- Witness for C5 (amended) on concrete sheets: a sheet whose row 1
qualifies, and a sheet with no qualifying row in the window. -/
theorem C5_window_witness :
    find_data_headers wsCarrefour =
      { (scanRow wsCarrefour 1).2 with header_row := some 1 }
    ∧ find_data_headers wsHeaderAtRow20 =
      { header_row := some 1, date_col := some 1, description_col := some 2,
        debit_col := some 4, credit_col := some 5 } :=
  ⟨(C5_window wsCarrefour).2 1 le_rfl (by decide) (by decide) (fun r' h1 h2 => by omega),
   (C5_window wsHeaderAtRow20).1 (by decide)⟩

/-- A digit character is not Python whitespace. -/
theorem digit_not_ws {c : Char} (h : isDigitC c = true) : isPyWs c = false := by
  unfold isDigitC at h
  unfold isPyWs
  simp only [Bool.and_eq_true, decide_eq_true_eq] at h
  simp only [Bool.or_eq_false_iff, decide_eq_false_iff_not]
  omega

/-- `dropWhile` is the identity when the head fails the predicate. -/
theorem dropWhile_eq_self_of_head {p : Char → Bool} {l : List Char}
    (h : ∀ c, l.head? = some c → p c = false) : l.dropWhile p = l := by
  cases l with
  | nil => rfl
  | cons a as =>
    rw [List.dropWhile_cons, h a rfl]
    simp

/-- `pyStrip` is the identity when neither end is whitespace. -/
theorem pyStrip_eq_self {s : String}
    (h1 : ∀ c, s.toList.head? = some c → isPyWs c = false)
    (h2 : ∀ c, s.toList.getLast? = some c → isPyWs c = false) : pyStrip s = s := by
  unfold pyStrip
  rw [dropWhile_eq_self_of_head h1]
  rw [dropWhile_eq_self_of_head (fun c hc => h2 c (by rwa [List.head?_reverse] at hc))]
  rw [List.reverse_reverse]
  rfl

open UAEBankExcelProcessor in
/-- C4: the date normalizer is total — an input failing every pattern maps to
today's date — an already-zero-padded ISO string is returned unchanged,
`25/12/2024` parses day-first to `2024-12-25`, `03/04/23` parses month-first
with the 2-digit-year pivot to `2023-03-04`, and a pivot year ≥ 50 maps to
the 1900s (`03/04/73` → `1973-03-04`). -/
theorem C4_date_normalizer (s today : String) :
    (anyDateMatch (pyStrip s) = false → detect_date_format today s = today)
    ∧ (isPaddedISO s = true → detect_date_format today s = s)
    ∧ detect_date_format today "25/12/2024" = "2024-12-25"
    ∧ detect_date_format today "03/04/23" = "2023-03-04"
    ∧ detect_date_format today "03/04/73" = "1973-03-04" := by
  refine ⟨?_, ?_, rfl, rfl, rfl⟩
  · intro h
    simp only [detect_date_format]
    cases hm4 : matchSlashDate 4 (pyStrip s).toList with
    | some g =>
      exfalso
      unfold anyDateMatch at h
      rw [hm4] at h
      simp at h
    | none =>
      cases hm2 : matchSlashDate 2 (pyStrip s).toList with
      | some g =>
        exfalso
        unfold anyDateMatch at h
        rw [hm2] at h
        simp at h
      | none =>
        cases hmi : matchISODate (pyStrip s).toList with
        | some g =>
          exfalso
          unfold anyDateMatch at h
          rw [hmi] at h
          simp at h
        | none => rfl
  · intro h
    unfold isPaddedISO at h
    split at h
    case h_2 => exact absurd h (by simp)
    case h_1 y1 y2 y3 y4 a m1 m2 b d1 d2 heq =>
      simp only [Bool.and_eq_true, beq_iff_eq] at h
      obtain ⟨⟨⟨⟨⟨⟨⟨⟨⟨hy1, hy2⟩, hy3⟩, hy4⟩, ha⟩, hm1⟩, hm2⟩, hb⟩, hd1⟩, hd2⟩ := h
      subst ha
      subst hb
      have hhead : ∀ c, s.toList.head? = some c → isPyWs c = false := by
        rw [heq]
        intro c hc
        simp only [List.head?_cons, Option.some_inj] at hc
        subst hc
        exact digit_not_ws hy1
      have hlast : ∀ c, s.toList.getLast? = some c → isPyWs c = false := by
        rw [heq]
        intro c hc
        have : c = d2 := by
          have h' := hc
          simp at h'
          exact h'.symm
        subst this
        exact digit_not_ws hd2
      have hstrip := pyStrip_eq_self hhead hlast
      simp only [detect_date_format, hstrip, heq]
      simp +decide [matchSlashDate, matchISODate, grabDigits, endOk, zfill2,
        hy1, hy2, hy3, hy4, hm1, hm2, hd1, hd2]
      cases s with
      | mk data =>
        simp only [String.toList] at heq
        subst heq
        rfl

open UAEBankExcelProcessor in
/-- Witness for C4 at concrete inputs. -/
theorem C4_date_normalizer_witness :
    detect_date_format "2099-09-09" "no date here" = "2099-09-09"
    ∧ detect_date_format "2099-09-09" "2024-01-05" = "2024-01-05" :=
  ⟨(C4_date_normalizer "no date here" "2099-09-09").1 (by decide),
   (C4_date_normalizer "2024-01-05" "2099-09-09").2.1 (by decide)⟩

/-- A prefix's characters all occur in the surrounding list. -/
theorem hasPrefixL_mem : ∀ {sub l : List Char}, hasPrefixL sub l = true → ∀ c ∈ sub, c ∈ l := by
  intro sub
  induction sub with
  | nil =>
    intro l h c hc
    simp at hc
  | cons a as ih =>
    intro l h c hc
    cases l with
    | nil => simp [hasPrefixL] at h
    | cons b bs =>
      simp only [hasPrefixL, Bool.and_eq_true, beq_iff_eq] at h
      rcases List.mem_cons.mp hc with rfl | hc2
      · rw [h.1]
        exact List.mem_cons_self b bs
      · exact List.mem_cons_of_mem b (ih h.2 c hc2)

/-- A substring's characters all occur in the surrounding list. -/
theorem hasSubL_mem : ∀ {sub l : List Char}, hasSubL sub l = true → ∀ c ∈ sub, c ∈ l := by
  intro sub l
  induction l with
  | nil =>
    intro h c hc
    exact hasPrefixL_mem h c hc
  | cons b bs ih =>
    intro h c hc
    simp only [hasSubL, Bool.or_eq_true] at h
    rcases h with h | h
    · exact hasPrefixL_mem h c hc
    · exact List.mem_cons_of_mem b (ih h c hc)

/-- A needle containing a non-digit never occurs in an all-digit string. -/
theorem strContains_digits_false {hay sub : String}
    (hd : hay.toList.all isDigitC = true)
    (hs : sub.toList.any (fun c => ! isDigitC c) = true) : strContains hay sub = false := by
  rcases List.any_eq_true.mp hs with ⟨c, hc, hcd⟩
  cases hcon : strContains hay sub with
  | false => rfl
  | true =>
    exfalso
    have hmem : c ∈ hay.toList := hasSubL_mem hcon c hc
    have hdig := List.all_eq_true.mp hd c hmem
    rw [hdig] at hcd
    simp at hcd

/-- Uppercasing fixes digits. -/
theorem asciiUpper_digit {c : Char} (h : isDigitC c = true) : asciiUpper c = c := by
  unfold isDigitC at h
  simp only [Bool.and_eq_true, decide_eq_true_eq] at h
  unfold asciiUpper
  rw [if_neg (by omega)]

/-- Lowercasing fixes digits. -/
theorem asciiLower_digit {c : Char} (h : isDigitC c = true) : asciiLower c = c := by
  unfold isDigitC at h
  simp only [Bool.and_eq_true, decide_eq_true_eq] at h
  unfold asciiLower
  rw [if_neg (by omega)]

/-- A pointwise-fixing map is the identity. -/
theorem map_eq_self_of {α : Type} {f : α → α} :
    ∀ {l : List α}, (∀ a ∈ l, f a = a) → l.map f = l := by
  intro l
  induction l with
  | nil => intro _; rfl
  | cons a as ih =>
    intro h
    simp only [List.map_cons]
    rw [h a (List.mem_cons_self a as), ih (fun b hb => h b (List.mem_cons_of_mem a hb))]

/-- `pyUpper` fixes all-digit strings. -/
theorem pyUpper_digits {s : String} (h : s.toList.all isDigitC = true) : pyUpper s = s := by
  unfold pyUpper
  rw [map_eq_self_of (fun c hc => asciiUpper_digit (List.all_eq_true.mp h c hc))]
  rfl

/-- `pyLower` fixes all-digit strings. -/
theorem pyLower_digits {s : String} (h : s.toList.all isDigitC = true) : pyLower s = s := by
  unfold pyLower
  rw [map_eq_self_of (fun c hc => asciiLower_digit (List.all_eq_true.mp h c hc))]
  rfl

namespace UAEBankExcelProcessor

/-- The bank-pattern scan misses when no pattern occurs. -/
theorem bankScan_none (tl : String) :
    ∀ l : List (String × List String), (∀ p ∈ l, ∀ q ∈ p.2, strContains tl q = false) →
    bankScan tl l = none := by
  intro l
  induction l with
  | nil => intro _; rfl
  | cons p rest ih =>
    intro h
    unfold bankScan
    have hk : keywordHit tl p.2 = false := by
      unfold keywordHit
      cases hx : p.2.any (fun k => strContains tl k) with
      | false => rfl
      | true =>
        rcases List.any_eq_true.mp hx with ⟨q, hq, hcq⟩
        rw [h p (List.mem_cons_self p rest) q hq] at hcq
        simp at hcq
    rw [if_neg (by rw [hk]; simp)]
    exact ih (fun p' hp' q hq => h p' (List.mem_cons_of_mem p hp') q hq)

/-- On an all-digit string no bank is detected. -/
theorem detect_bank_digits {s : String} (h : s.toList.all isDigitC = true) :
    detect_bank s = "Unknown Bank" := by
  unfold detect_bank
  rw [pyLower_digits h]
  have hnone : bankScan s bank_patterns = none := by
    apply bankScan_none
    intro p hp q hq
    apply strContains_digits_false h
    fin_cases hp <;> fin_cases hq <;> decide
  rw [hnone]

end UAEBankExcelProcessor

/-- Removing a non-digit character fixes all-digit strings. -/
theorem removeChar_digits {t : Char} {s : String} (h : s.toList.all isDigitC = true)
    (ht : isDigitC t = false) : removeChar t s = s := by
  unfold removeChar
  have hfix : s.toList.filter (fun c => c ≠ t) = s.toList := by
    rw [List.filter_eq_self]
    intro a ha
    have hd := List.all_eq_true.mp h a ha
    simp only [ne_eq, decide_eq_true_eq]
    intro hat
    subst hat
    rw [hd] at ht
    simp at ht
  rw [hfix]
  rfl

namespace UAEBankExcelProcessor

/-- An all-digit string of length 10–16 matches the account-number regex. -/
theorem matchAcctDigits_true {s : String} (h : s.toList.all isDigitC = true)
    (h10 : 10 ≤ s.toList.length) (h16 : s.toList.length ≤ 16) :
    matchAcctDigits s = true := by
  simp only [matchAcctDigits]
  have hne : s.toList ≠ [] := by
    intro he
    rw [he] at h10
    simp at h10
  have hlast : s.toList.getLast? = some (s.toList.getLast hne) :=
    List.getLast?_eq_getLast _ hne
  have hmem : s.toList.getLast hne ∈ s.toList := List.getLast_mem hne
  have hdig := List.all_eq_true.mp h _ hmem
  have hnl : ¬ s.toList.getLast? = some '\n' := by
    rw [hlast]
    intro hc
    rw [Option.some_inj] at hc
    rw [hc] at hdig
    exact absurd hdig (by decide)
  rw [if_neg hnl]
  simp only [Bool.and_eq_true, decide_eq_true_eq]
  exact ⟨⟨h10, h16⟩, h⟩

/-- The masked form always differs from the raw all-digit string. -/
theorem masked_ne {s : String} (h : s.toList.all isDigitC = true) :
    strTake 4 s ++ "-****-" ++ strTakeRight 4 s ≠ s := by
  intro he
  have hdata := congrArg String.data he
  rw [String.data_append, String.data_append] at hdata
  have hdash : '-' ∈ s.data := by
    rw [← hdata]
    exact List.mem_append.mpr (Or.inl (List.mem_append.mpr (Or.inr (by decide))))
  have hdig := List.all_eq_true.mp h '-' hdash
  exact absurd hdig (by decide)

/-- `updateBankInfo` on an all-digit cell of plausible account-number size
only rewrites the account number, to the first-4/last-4-character mask. -/
theorem updateBankInfo_digits (bi : BankInfo) {s : String}
    (hd : s.toList.all isDigitC = true) (h10 : 10 ≤ s.toList.length)
    (h16 : s.toList.length ≤ 16) :
    updateBankInfo bi s =
      { bi with account_number := strTake 4 s ++ "-****-" ++ strTakeRight 4 s } := by
  have hany : s.toList.any (fun c => isDigitC c) = true := by
    cases hl : s.toList with
    | nil =>
      rw [hl] at h10
      simp at h10
    | cons c cs =>
      rw [hl] at hd
      exact List.any_eq_true.mpr
        ⟨c, List.mem_cons_self c cs, List.all_eq_true.mp hd c (List.mem_cons_self c cs)⟩
  have hrm : removeChar '-' (removeChar ' ' s) = s := by
    rw [removeChar_digits hd (by decide), removeChar_digits hd (by decide)]
  simp only [updateBankInfo]
  rw [pyUpper_digits hd, detect_bank_digits hd]
  rw [if_neg (show ¬ ("Unknown Bank" ≠ "UAE Bank" ∧ "Unknown Bank" ≠ "Unknown Bank") by simp)]
  rw [hrm]
  rw [if_pos (show matchAcctDigits s = true from matchAcctDigits_true hd h10 h16)]
  by_cases hwc : 2 ≤ (pySplitWs s).length ∧ (pySplitWs s).length ≤ 4
  · rw [if_pos hwc]
    rw [if_neg (show ¬¬(s.toList.any (fun c => isDigitC c) = true) from not_not_intro hany)]
  · rw [if_neg hwc]

end UAEBankExcelProcessor

open UAEBankExcelProcessor in
/-- C1 (amended): `extract_bank_info` masks a cell whose content is a pure
digit string of 10–16 digits to its first four characters, `-****-`, and its
last four characters (here equal to first-4/last-4 digits), never the raw
string; but the pipeline of `process_excel_file` copies an `Account Info`
sheet's account number verbatim, without masking. -/
theorem C1_masking (s : String) (hd : s.toList.all isDigitC = true)
    (h10 : 10 ≤ s.toList.length) (h16 : s.toList.length ≤ 16) :
    (extract_bank_info ⟨[[some s]]⟩).account_number
        = strTake 4 s ++ "-****-" ++ strTakeRight 4 s
    ∧ (extract_bank_info ⟨[[some s]]⟩).account_number ≠ s
    ∧ (accountInfoBankInfo ⟨[[some "Account Number", some s]]⟩).account_number = s := by
  have hne : s ≠ "" := by
    intro he
    subst he
    simp at h10
  have hmask : extract_bank_info ⟨[[some s]]⟩ =
      { bank_name := "UAE Bank", account_holder := "Account Holder",
        account_number := strTake 4 s ++ "-****-" ++ strTakeRight 4 s,
        currency := "AED" } := by
    unfold extract_bank_info
    have hrows : List.range' 1 (min 21 ((⟨[[some s]]⟩ : Worksheet).maxRow + 1) - 1) = [1] := rfl
    have hcols : List.range' 1 (min 10 ((⟨[[some s]]⟩ : Worksheet).maxCol + 1) - 1) = [1] := rfl
    rw [hrows, hcols]
    simp only [List.foldl_cons, List.foldl_nil]
    have hcell : (((⟨[[some s]]⟩ : Worksheet).cell 1 1).getD "") = s := rfl
    rw [hcell]
    rw [updateBankInfo_digits _ hd h10 h16]
  have hacct : accountInfoBankInfo ⟨[[some "Account Number", some s]]⟩ =
      { bank_name := "Unknown Bank", account_holder := "Account Holder",
        account_number := s, currency := "USD" } := by
    unfold accountInfoBankInfo
    have hrows : List.range' 1 ((⟨[[some "Account Number", some s]]⟩ : Worksheet).maxRow)
        = [1] := rfl
    rw [hrows]
    simp only [List.foldl_cons, List.foldl_nil]
    have hfield : pyLower (((⟨[[some "Account Number", some s]]⟩ : Worksheet).cell 1 1).getD "")
        = "account number" := rfl
    have hvalue : (((⟨[[some "Account Number", some s]]⟩ : Worksheet).cell 1 2).getD "") = s :=
      rfl
    rw [hfield, hvalue]
    rw [if_neg (fun hc => absurd hc.1 (by decide))]
    rw [if_pos ⟨by decide, hne⟩]
  refine ⟨by rw [hmask], ?_, by rw [hacct]⟩
  rw [hmask]
  exact masked_ne hd

open UAEBankExcelProcessor in
/-- Witness for C1 (amended) at a concrete ten-digit account number. -/
theorem C1_masking_witness :
    (extract_bank_info ⟨[[some "1234567890"]]⟩).account_number
        = strTake 4 "1234567890" ++ "-****-" ++ strTakeRight 4 "1234567890"
    ∧ (extract_bank_info ⟨[[some "1234567890"]]⟩).account_number ≠ "1234567890"
    ∧ (accountInfoBankInfo ⟨[[some "Account Number", some "1234567890"]]⟩).account_number
        = "1234567890" :=
  C1_masking "1234567890" (by decide) (by decide) (by decide)

open UAEBankExcelProcessor in
/-- C1: the claim is false on the pipeline path: `process_excel_file` copies
the `Account Info` sheet's account-number cell verbatim into the resulting
bank info, so a cell holding ten digits yields the raw digit string rather
than the masked `first4-****-last4` form. -/
theorem C1_counterexample :
    (accountInfoBankInfo ⟨[[some "Account Number", some "1234567890"]]⟩).account_number
      = "1234567890"
    ∧ matchAcctDigits "1234567890" = true
    ∧ ("1234567890" : String) ≠ "1234" ++ "-****-" ++ "7890" := by
  decide
